import Mathlib

set_option maxRecDepth 8000

/-!
Shallow embedding of the critique-request pipeline implemented in
`src/app/api/critique/route.ts` (a Next.js route handler).

Modelling conventions:
  JavaScript strings are lists of characters (`JStr`); JSON-ish runtime values
  are the mutual inductive `JsValue` (with explicit constructors for the
  shapes that make `JSON.stringify` throw: `bigintV`, and `cyclicV` standing
  for cyclic object graphs, which an inductive cannot represent directly);
  the route handler `POST` is a pure function of the process environment, the
  inbound request, and the outcome of the single upstream model call.
  The per-invocation `request_id` (an opaque random correlation token) is
  omitted from the modelled response bodies.
-/

/-- JavaScript strings, modelled as lists of UTF-16-ish characters. -/
abbrev JStr := List Char

/-- Embed a Lean string literal as a `JStr`. -/
def jstr (s : String) : JStr := s.data

/-- Model of `MAX_PRD_CHARS` (route.ts line 18). -/
def MAX_PRD_CHARS : Nat := 20000

/-- Model of `MAX_CODE_CHARS` (route.ts line 19). -/
def MAX_CODE_CHARS : Nat := 20000

/-- Model of `MAX_FAILUREINFO_CHARS` (route.ts line 20). -/
def MAX_FAILUREINFO_CHARS : Nat := 12000

/-- Model of `MAX_PROMPT_CHARS` (route.ts line 21). -/
def MAX_PROMPT_CHARS : Nat := 60000

/-- The marker text appended by `truncate` when it drops characters:
the template literal `"\n\n...[TRUNCATED " + dropped + " chars]"`. -/
def truncMarker (dropped : Nat) : JStr :=
  jstr "\n\n...[TRUNCATED " ++ (Nat.repr dropped).data ++ jstr " chars]"

/-- Model of `truncate` (route.ts lines 23-26): return `s` unchanged when it
fits in `cap` characters, else its `cap`-character prefix (`s.slice(0, max)`)
followed by the truncation marker. -/
def truncate (s : JStr) (cap : Nat) : JStr :=
  if s.length ≤ cap then s else s.take cap ++ truncMarker (s.length - cap)

/-- Model of JavaScript `Array.prototype.join(sep)`. -/
def jsJoin (sep : JStr) : List JStr → JStr
  | [] => []
  | [x] => x
  | x :: y :: tl => x ++ sep ++ jsJoin sep (y :: tl)

/-- Whitespace recognised by the model of `String.prototype.trim` (the common
ASCII whitespace characters; exotic Unicode whitespace is not modelled). -/
def jsWs (c : Char) : Bool :=
  c = ' ' || c = '\t' || c = '\n' || c = '\r' || c = '\x0b' || c = '\x0c'

/-- Model of JavaScript `String.prototype.trim`. -/
def jsTrim (s : JStr) : JStr :=
  ((s.dropWhile jsWs).reverse.dropWhile jsWs).reverse

mutual
/-- JavaScript runtime values as they can reach `failure_info` / request
bodies. `bigintV` and `cyclicV` are the value shapes whose `JSON.stringify`
throws; `undef` and `funcV` are the shapes it serializes to `undefined`. -/
inductive JsValue where
  | undef : JsValue
  | nullV : JsValue
  | boolV : Bool → JsValue
  | numV : Int → JsValue
  | strV : JStr → JsValue
  | bigintV : Int → JsValue
  | funcV : JsValue
  | cyclicV : JsValue
  | arrV : JsArr → JsValue
  | objV : JsFields → JsValue
/-- Array payload of a `JsValue`. -/
inductive JsArr where
  | nil : JsArr
  | cons : JsValue → JsArr → JsArr
/-- Key/value fields of a JavaScript object (later entries override earlier
ones on property lookup, as after `JSON.parse` with duplicate keys). -/
inductive JsFields where
  | nil : JsFields
  | cons : JStr → JsValue → JsFields → JsFields
end

/-- Lower-case hex digit, as produced by JavaScript escape sequences. -/
def hexDigit (n : Nat) : Char :=
  Char.ofNat (if n < 10 then 48 + n else 87 + n)

/-- JSON string escaping for one character (model of the escaping performed
by `JSON.stringify` on string values). -/
def escChar (c : Char) : JStr :=
  if c = '"' then jstr "\\\""
  else if c = '\\' then jstr "\\\\"
  else if c = '\n' then jstr "\\n"
  else if c = '\r' then jstr "\\r"
  else if c = '\t' then jstr "\\t"
  else if c = '\x08' then jstr "\\b"
  else if c = '\x0c' then jstr "\\f"
  else if c.toNat < 32 then
    jstr "\\u00" ++ [hexDigit (c.toNat / 16), hexDigit (c.toNat % 16)]
  else [c]

/-- Quote a string as a JSON string literal. -/
def jsonQuote (s : JStr) : JStr := '"' :: (s.map escChar).flatten ++ ['"']

/-- The two-space indentation step of `JSON.stringify(x, null, 2)`. -/
def jsonGap : JStr := jstr "  "

mutual
/-- Model of `JSON.stringify(v, null, 2)` at indentation `ind`:
`.error ()` when serialization throws (BigInt values, cyclic graphs),
`.ok none` when it produces `undefined` (top-level `undefined` / functions),
`.ok (some text)` otherwise. -/
def serVal (ind : JStr) : JsValue → Except Unit (Option JStr)
  | .undef => .ok none
  | .funcV => .ok none
  | .nullV => .ok (some (jstr "null"))
  | .boolV b => .ok (some (if b then jstr "true" else jstr "false"))
  | .numV n => .ok (some (toString n).data)
  | .strV s => .ok (some (jsonQuote s))
  | .bigintV _ => .error ()
  | .cyclicV => .error ()
  | .arrV xs => do
      let items ← serArr (ind ++ jsonGap) xs
      match items with
      | [] => pure (some (jstr "[]"))
      | _ => pure (some (jstr "[" ++ jstr "\n" ++
          jsJoin (jstr ",\n") (items.map (fun it => ind ++ jsonGap ++ it)) ++
          jstr "\n" ++ ind ++ jstr "]"))
  | .objV fs => do
      let members ← serObj (ind ++ jsonGap) fs
      match members with
      | [] => pure (some (jstr "\x7b\x7d"))
      | _ => pure (some (jstr "\x7b" ++ jstr "\n" ++
          jsJoin (jstr ",\n") (members.map (fun it => ind ++ jsonGap ++ it)) ++
          jstr "\n" ++ ind ++ jstr "\x7d"))
/-- Serialize array elements; elements that serialize to `undefined` render
as `null`, as `JSON.stringify` does inside arrays. -/
def serArr (ind : JStr) : JsArr → Except Unit (List JStr)
  | .nil => .ok []
  | .cons v tl => do
      let r ← serVal ind v
      let rest ← serArr ind tl
      pure ((r.getD (jstr "null")) :: rest)
/-- Serialize object members; members whose value serializes to `undefined`
are skipped, as `JSON.stringify` does inside objects. -/
def serObj (ind : JStr) : JsFields → Except Unit (List JStr)
  | .nil => .ok []
  | .cons k v tl => do
      let r ← serVal ind v
      let rest ← serObj ind tl
      match r with
      | none => pure rest
      | some txt => pure ((jsonQuote k ++ jstr ": " ++ txt) :: rest)
end

/-- Model of the nullish-coalescing `x ?? null` applied to `failure_info`. -/
def jsNullish (x : JsValue) : JsValue :=
  match x with
  | .undef => .nullV
  | .nullV => .nullV
  | v => v

/-- Model of `safeStringifyFailureInfo` (route.ts lines 28-35):
`JSON.stringify(x ?? null, null, 2)` truncated to `MAX_FAILUREINFO_CHARS`;
if serialization throws, or produces `undefined` (in which case the
`truncate` call inside the same `try` throws a `TypeError`), the `catch`
returns the literal text `"null"`. -/
def safeStringifyFailureInfo (x : JsValue) : JStr :=
  match serVal [] (jsNullish x) with
  | .ok (some raw) => truncate raw MAX_FAILUREINFO_CHARS
  | .ok none => jstr "null"
  | .error _ => jstr "null"

/-- The validated request produced by `CritiqueRequestSchema.parse`
(route.ts lines 7-15). Absent optional `any` fields are `undef`; absent
optional string fields are `none`. Unknown keys are stripped by the schema
and so do not appear here. -/
structure CritiqueRequest where
  id : JStr
  prd : JStr
  buggy_solution_code : JStr
  failure_info : JsValue
  label : Option JStr
  qwq_critique : Option JStr
  meta : JsValue

/-- The array of prompt lines assembled by `buildPrompt` (route.ts lines
43-89) before they are joined with newlines: the fixed preamble followed by
the interpolated, per-field-truncated inputs. -/
def promptParts (input : CritiqueRequest) : List JStr :=
  [jstr "You are a meticulous Quality Assurance Engineer for the OpenCodeReasoning (OCR) Challenge.",
   jstr "",
   jstr "You will be given:",
   jstr "- PRD: the exact problem statement + constraints",
   jstr "- BUGGY_CODE: a Python solution that fails",
   jstr "- FAILURE_INFO: failing tests / trace / error details (may be partial)",
   jstr "- LABEL/JUDGEMENT: may be present as a hint about expected behavior",
   jstr "",
   jstr "OUTPUT FORMAT CONTRACT (STRICT):",
   jstr "- Your output MUST contain exactly THREE sections, in this exact order.",
   jstr "- The FIRST line of each section MUST be EXACTLY one of these header lines (match characters exactly):",
   jstr "Detailed Diagnosis",
   jstr "[Proposed Fix]",
   jstr "<Test_Validation>",
   jstr "- Do NOT add any other headers or lines that look like headers.",
   jstr "- Do NOT add numbering, bullets, colons, markdown prefixes (e.g. ###), or extra characters on the header lines.",
   jstr "- Do NOT output anything before \x27Detailed Diagnosis\x27 and do NOT output anything after the <Test_Validation> section.",
   jstr "",
   jstr "CORRECTNESS REQUIREMENTS:",
   jstr "- Detailed Diagnosis: identify faulty line(s), root cause, and how it violates the PRD.",
   jstr "- [Proposed Fix]: provide a complete, self-contained Python script that solves the PRD.",
   jstr "  - Keep the original structure where possible; change only what is necessary to satisfy the PRD.",
   jstr "  - Do NOT introduce unrelated algorithms or features.",
   jstr "- <Test_Validation>: include at least 3 NEW assert statements (plain \x27assert\x27, no test frameworks).",
   jstr "  - Include at least 1 counter-factual assert that fails on the buggy code but passes on your fix (use FAILURE_INFO when possible).",
   jstr "  - Include at least 2 additional edge/boundary asserts implied by the PRD.",
   jstr "- The asserts MUST be consistent with the behavior of your fixed code.",
   jstr "- Do NOT use external internet, files, or non-standard libraries.",
   jstr "- Keep it formal, precise, and technical. No filler.",
   jstr "",
   jstr "INPUTS:",
   jstr "",
   jstr "=== PRD ===",
   jsTrim (truncate input.prd MAX_PRD_CHARS),
   jstr "",
   jstr "=== BUGGY_CODE ===",
   jsTrim (truncate input.buggy_solution_code MAX_CODE_CHARS),
   jstr "",
   jstr "=== FAILURE_INFO (json) ===",
   safeStringifyFailureInfo input.failure_info,
   jstr "",
   jstr "=== LABEL/JUDGEMENT (optional) ===",
   input.label.getD (jstr "null"),
   jstr "",
   jstr "Return ONLY the three required sections, in order, with the exact header lines."]

/-- The prompt as assembled by `buildPrompt` just before the final overall
truncation: `[...].join("\n")`. -/
def assemblePrompt (input : CritiqueRequest) : JStr :=
  jsJoin (jstr "\n") (promptParts input)

/-- Model of `buildPrompt` (route.ts lines 37-92): assemble the prompt lines
and apply `truncate(prompt, MAX_PROMPT_CHARS)` as the final step. -/
def buildPrompt (input : CritiqueRequest) : JStr :=
  truncate (assemblePrompt input) MAX_PROMPT_CHARS

/-- A JavaScript number as far as the timeout configuration needs it:
either a (mathematical) integer value or `NaN`. -/
inductive JsNumber where
  | nan : JsNumber
  | num : Int → JsNumber
deriving DecidableEq

/-- Digit value of a character, if it is a decimal digit. -/
def digitVal (c : Char) : Option Nat :=
  if '0' ≤ c ∧ c ≤ '9' then some (c.toNat - 48) else none

/-- Accumulate decimal digits; fails on the first non-digit. -/
def parseDigitsAux : JStr → Nat → Option Nat
  | [], acc => some acc
  | c :: cs, acc =>
    match digitVal c with
    | some d => parseDigitsAux cs (10 * acc + d)
    | none => none

/-- Parse a non-empty all-digit string as a natural number. -/
def parseDigits : JStr → Option Nat
  | [] => none
  | cs => parseDigitsAux cs 0

/-- Parse an optionally signed decimal integer numeral. -/
def parseSignedInt : JStr → Option Int
  | '-' :: cs => (parseDigits cs).map (fun n => -(n : Int))
  | '+' :: cs => (parseDigits cs).map (fun n => (n : Int))
  | cs => (parseDigits cs).map (fun n => (n : Int))

/-- Model of JavaScript `Number(s)` on a string, restricted to optionally
signed decimal integer numerals (the forms relevant here): trims whitespace,
maps the empty/whitespace-only string to `0`, a decimal integer numeral to
its value, and anything else to `NaN`. -/
def jsNumberOfString (s : JStr) : JsNumber :=
  let t := jsTrim s
  if t.isEmpty then .num 0
  else
    match parseSignedInt t with
    | some n => .num n
    | none => .nan

/-- Model of `Number(process.env.CRITIQUE_TIMEOUT_MS || 45_000)` (route.ts
line 135): the `||` replaces an unset variable (or one set to the empty
string, which is falsy) by the number `45_000`; any other string goes
through `Number(...)`. -/
def timeoutMsOf (envVar : Option JStr) : JsNumber :=
  match envVar with
  | none => .num 45000
  | some s => if s.isEmpty then .num 45000 else jsNumberOfString s

/-- Does `s` start with `needle`? (helper for the model of `includes`). -/
def listStartsWith : JStr → JStr → Bool
  | _, [] => true
  | [], _ :: _ => false
  | c :: cs, d :: ds => (c == d) && listStartsWith cs ds

/-- Model of JavaScript `s.includes(needle)`: `needle` occurs somewhere
inside `s`. -/
def jsIncludes (s needle : JStr) : Bool :=
  match s with
  | [] => (match needle with | [] => true | _ :: _ => false)
  | c :: tl => listStartsWith (c :: tl) needle || jsIncludes tl needle

/-- Model of the `hasAllHeaders` computation (route.ts lines 161-164):
the conjunction of three `includes` checks on the generated text. -/
def hasAllHeaders (text : JStr) : Bool :=
  jsIncludes text (jstr "Detailed Diagnosis") &&
  jsIncludes text (jstr "[Proposed Fix]") &&
  jsIncludes text (jstr "<Test_Validation>")

/-- Schema key `id`. -/
def keyId : JStr := jstr "id"

/-- Schema key `prd`. -/
def keyPrd : JStr := jstr "prd"

/-- Schema key `buggy_solution_code`. -/
def keyCode : JStr := jstr "buggy_solution_code"

/-- Schema key `failure_info`. -/
def keyFailureInfo : JStr := jstr "failure_info"

/-- Schema key `label`. -/
def keyLabel : JStr := jstr "label"

/-- Schema key `qwq_critique`. -/
def keyQwq : JStr := jstr "qwq_critique"

/-- Schema key `meta`. -/
def keyMeta : JStr := jstr "meta"

/-- All keys declared by `CritiqueRequestSchema`; every other key of an
incoming object is unknown to the schema and stripped. -/
def schemaKeys : List JStr :=
  [keyId, keyPrd, keyCode, keyFailureInfo, keyLabel, keyQwq, keyMeta]

/-- Zod issue message for a missing required field. -/
def msgRequired : JStr := jstr "Required"

/-- Zod issue message for a present field of the wrong type. -/
def msgExpectedString : JStr := jstr "Expected string"

/-- Zod issue message for an empty string failing `.min(1)`. -/
def msgTooSmall : JStr := jstr "String must contain at least 1 character(s)"

/-- Zod issue message for a non-object request body. -/
def msgExpectedObject : JStr := jstr "Expected object"

/-- One zod validation issue: the path of the offending field plus a
message. -/
structure Issue where
  path : List JStr
  message : JStr
deriving DecidableEq

/-- Property lookup on a JavaScript object built from a field list: the
last binding of a key wins (as after `JSON.parse` with duplicate keys). -/
def getField (fields : JsFields) (k : JStr) : Option JsValue :=
  match fields with
  | .nil => none
  | .cons k2 v tl =>
    match getField tl k with
    | some r => some r
    | none => if k2 = k then some v else none

/-- Append two field lists (used to model adding extra properties to a
request object). -/
def JsFields.append : JsFields → JsFields → JsFields
  | .nil, ys => ys
  | .cons k v tl, ys => .cons k v (JsFields.append tl ys)

/-- Does the field list bind the key `k`? -/
def JsFields.hasKey (k : JStr) : JsFields → Bool
  | .nil => false
  | .cons k2 _ tl => (k2 == k) || JsFields.hasKey k tl

/-- The issues (if any) produced by one field check. -/
def errOf {α : Type} : Except Issue α → List Issue
  | .error e => [e]
  | .ok _ => []

/-- Check of `z.string().min(1)` for a required field `k`: absent or
`undefined` reports `Required`; a non-string reports a type issue; the
empty string fails `.min(1)`. -/
def checkReqStr (fields : JsFields) (k : JStr) : Except Issue JStr :=
  match getField fields k with
  | none => .error ⟨[k], msgRequired⟩
  | some .undef => .error ⟨[k], msgRequired⟩
  | some (.strV s) => if s = [] then .error ⟨[k], msgTooSmall⟩ else .ok s
  | some _ => .error ⟨[k], msgExpectedString⟩

/-- Check of `z.string().optional()` for the key `k`: absent or `undefined`
is fine; present values must be strings. -/
def checkOptStr (fields : JsFields) (k : JStr) : Except Issue (Option JStr) :=
  match getField fields k with
  | none => .ok none
  | some .undef => .ok none
  | some (.strV s) => .ok (some s)
  | some _ => .error ⟨[k], msgExpectedString⟩

/-- Model of `CritiqueRequestSchema.parse` (route.ts lines 7-15): a
non-object body is rejected outright; otherwise every declared field is
checked and ALL issues are collected (zod does not stop at the first);
`failure_info` and `meta` accept anything; unknown keys are stripped. -/
def parseCritiqueRequest : JsValue → Except (List Issue) CritiqueRequest
  | .objV fields =>
    match checkReqStr fields keyId, checkReqStr fields keyPrd,
          checkReqStr fields keyCode, checkOptStr fields keyLabel,
          checkOptStr fields keyQwq with
    | .ok i, .ok p, .ok c, .ok l, .ok q =>
        .ok ⟨i, p, c, (getField fields keyFailureInfo).getD .undef, l, q,
             (getField fields keyMeta).getD .undef⟩
    | rid, rprd, rcode, rlabel, rqwq =>
        .error (errOf rid ++ errOf rprd ++ errOf rcode ++
                errOf rlabel ++ errOf rqwq)
  | _ => .error [⟨[], msgExpectedObject⟩]

/-- The process environment variables the route reads. -/
structure Env where
  hfToken : Option JStr
  hfModel : Option JStr
  critiqueTimeoutMs : Option JStr

/-- The inbound HTTP request as the route observes it: the `content-type`
header (absent means `headers.get` returned `null`, which `|| ""` turns into
the empty string) and the body (`none` models `req.json()` throwing on a
non-JSON body). -/
structure Req where
  contentType : Option JStr
  body : Option JsValue

/-- The outcome of the single upstream completion call: a response whose
`choices?.[0]?.message?.content` is `content` (possibly absent), an
`AbortError` (fired timeout), or any other exception. -/
inductive ModelOutcome where
  | success : Option JStr → ModelOutcome
  | abortError : ModelOutcome
  | otherError : ModelOutcome

/-- The JSON body of a route response, minus the random `request_id`:
either a failure (`ok: false`) with an error text and optional zod issue
details, or a success (`ok: true`). -/
inductive RespBody where
  | failure : JStr → Option (List Issue) → RespBody
  | success : JStr → JStr → Bool → JStr → RespBody

/-- An HTTP response as produced by the route: status, the `Cache-Control`
header value, and the JSON body. -/
structure Resp where
  status : Nat
  cacheControl : JStr
  body : RespBody

/-- Model of `jsonNoStore` (route.ts lines 94-98): serialize `body` with
the given status and set `Cache-Control: no-store`. -/
def jsonNoStore (body : RespBody) (status : Nat) : Resp :=
  ⟨status, jstr "no-store", body⟩

/-- Model of the content-type guard (route.ts lines 105-106):
`(req.headers.get("content-type") || "").includes("application/json")`. -/
def ctDeclaresJson (ct : Option JStr) : Bool :=
  jsIncludes (ct.getD []) (jstr "application/json")

/-- Model of `!hfToken` (route.ts line 114): an unset variable and the
empty string are both falsy. -/
def tokenFalsy : Option JStr → Bool
  | none => true
  | some s => s.isEmpty

/-- The fixed default model identifier (route.ts line 131). -/
def defaultModel : JStr := jstr "Qwen/Qwen2.5-Coder-7B-Instruct"

/-- Model of `process.env.HF_MODEL || "Qwen/Qwen2.5-Coder-7B-Instruct"`. -/
def modelOf (envVar : Option JStr) : JStr :=
  match envVar with
  | none => defaultModel
  | some s => if s.isEmpty then defaultModel else s

/-- The route's observable behaviour on one invocation: the HTTP response
plus the number of upstream completion calls issued. -/
structure PostResult where
  resp : Resp
  modelCalls : Nat

/-- Model of the `POST` handler (route.ts lines 100-197), as a pure
function of the environment, the request, and the outcome of the (at most
one) upstream call. Branches in source order: content-type guard (415),
`HF_TOKEN` guard (500), `req.json()` throwing (caught by the generic
handler, 500), `CritiqueRequestSchema.parse` throwing `ZodError` (400),
then the single completion call whose `AbortError` maps to 504, any other
exception to 500, and success to the 200 body carrying `id`, the model
actually used, `hasAllHeaders`, and the text (`content ?? ""`). -/
def POSTrun (env : Env) (req : Req) (outcome : ModelOutcome) : PostResult :=
  if ctDeclaresJson req.contentType = false then
    ⟨jsonNoStore (.failure (jstr "Content-Type must be application/json") none) 415, 0⟩
  else if tokenFalsy env.hfToken = true then
    ⟨jsonNoStore (.failure (jstr "Server misconfigured: HF_TOKEN missing") none) 500, 0⟩
  else
    match req.body with
    | none => ⟨jsonNoStore (.failure (jstr "Server error") none) 500, 0⟩
    | some body =>
      match parseCritiqueRequest body with
      | .error issues =>
          ⟨jsonNoStore (.failure (jstr "Invalid request body") (some issues)) 400, 0⟩
      | .ok input =>
        match outcome with
        | .abortError =>
            ⟨jsonNoStore (.failure (jstr "Upstream model request timed out") none) 504, 1⟩
        | .otherError =>
            ⟨jsonNoStore (.failure (jstr "Server error") none) 500, 1⟩
        | .success content =>
            ⟨jsonNoStore (.success input.id (modelOf env.hfModel)
                (hasAllHeaders (content.getD [])) (content.getD [])) 200, 1⟩

/-- The HTTP response of the `POST` handler. -/
def POST (env : Env) (req : Req) (outcome : ModelOutcome) : Resp :=
  (POSTrun env req outcome).resp

/-- The spec's outcome taxonomy (spec section 7). -/
inductive FailureClass where
  | validationFailure : FailureClass
  | badContentType : FailureClass
  | misconfigured : FailureClass
  | upstreamTimeout : FailureClass
  | serverError : FailureClass
  | success : FailureClass

/-- The status table of spec section 6: validation failure 400, content-type
mismatch 415, missing credential 500, timeout 504, any other failure 500,
success 200. -/
def specStatus : FailureClass → Nat
  | .validationFailure => 400
  | .badContentType => 415
  | .misconfigured => 500
  | .upstreamTimeout => 504
  | .serverError => 500
  | .success => 200

/-- How the implemented handler classifies an invocation, read off the
branch structure of `POSTrun`. -/
def classify (env : Env) (req : Req) (outcome : ModelOutcome) : FailureClass :=
  if ctDeclaresJson req.contentType = false then .badContentType
  else if tokenFalsy env.hfToken = true then .misconfigured
  else
    match req.body with
    | none => .serverError
    | some body =>
      match parseCritiqueRequest body with
      | .error _ => .validationFailure
      | .ok _ =>
        match outcome with
        | .abortError => .upstreamTimeout
        | .otherError => .serverError
        | .success _ => .success

/-- Does an invocation get past every guard and reach the completion call? -/
def reachesInvoker (env : Env) (req : Req) : Bool :=
  ctDeclaresJson req.contentType && !tokenFalsy env.hfToken &&
  (match req.body with
   | none => false
   | some body =>
     match parseCritiqueRequest body with
     | .ok _ => true
     | .error _ => false)

/-- A request object with all three required fields valid. -/
def validFields : JsFields :=
  .cons keyId (.strV (jstr "s1"))
    (.cons keyPrd (.strV (jstr "Return sum of list"))
      (.cons keyCode (.strV (jstr "def f(x): return 0")) .nil))

/-- A request object whose body is missing `prd` (and `buggy_solution_code`). -/
def missingPrdFields : JsFields := .cons keyId (.strV (jstr "s1")) .nil

/-- Valid required fields plus a numeric `label`. -/
def labelNumFields : JsFields :=
  .cons keyId (.strV (jstr "a"))
    (.cons keyPrd (.strV (jstr "b"))
      (.cons keyCode (.strV (jstr "c"))
        (.cons keyLabel (.numV 5) .nil)))

/-- Valid required fields plus a numeric `qwq_critique`. -/
def qwqNumFields : JsFields :=
  .cons keyId (.strV (jstr "a"))
    (.cons keyPrd (.strV (jstr "b"))
      (.cons keyCode (.strV (jstr "c"))
        (.cons keyQwq (.numV 5) .nil)))

/-- Valid required fields only. -/
def c10BaseFields : JsFields :=
  .cons keyId (.strV (jstr "a"))
    (.cons keyPrd (.strV (jstr "b"))
      (.cons keyCode (.strV (jstr "c")) .nil))

/-- Extra properties with keys unknown to the schema. -/
def c10Extras : JsFields :=
  .cons (jstr "extra_key") (.boolV true)
    (.cons (jstr "another_extra") (.numV 7) .nil)

/-- The request `c10BaseFields` parses to. -/
def c10Parsed : CritiqueRequest :=
  ⟨jstr "a", jstr "b", jstr "c", .undef, none, none, .undef⟩

/-- An environment with no `HF_TOKEN`. -/
def envNoToken : Env := ⟨none, none, none⟩

/-- An environment with an `HF_TOKEN`. -/
def envTokenOk : Env := ⟨some (jstr "hf_token"), none, none⟩

/-- A JSON-declared request whose body is missing `prd`. -/
def reqMissingPrdJson : Req :=
  ⟨some (jstr "application/json"), some (.objV missingPrdFields)⟩

/-- A JSON-declared request with a fully valid body. -/
def reqValidJson : Req :=
  ⟨some (jstr "application/json"), some (.objV validFields)⟩

/-- The issue list zod reports for `missingPrdFields`. -/
def c1Issues : List Issue :=
  [⟨[keyPrd], msgRequired⟩, ⟨[keyCode], msgRequired⟩]

/-- A label of 60001 characters (labels are interpolated without any
per-field cap). -/
def c2BigLabel : JStr := List.replicate 60001 'a'

/-- A validated request carrying the oversized label. -/
def c2BigInput : CritiqueRequest :=
  ⟨jstr "s1", jstr "p", jstr "c", .undef, some c2BigLabel, none, .undef⟩

/-- A small validated request (spec section 8, scenario A shape). -/
def c2SmallInput : CritiqueRequest :=
  ⟨jstr "s1", jstr "Return sum of list", jstr "def f(x): return 0",
   .objV (.cons (jstr "trace") (.strV (jstr "AssertionError")) .nil),
   none, none, .undef⟩

/-- Truncation lemma: a string within the cap is returned unchanged. -/
theorem truncate_eq_of_le {s : JStr} {cap : Nat} (h : s.length ≤ cap) :
    truncate s cap = s := by
  unfold truncate; rw [if_pos h]

/-- Truncation lemma: an over-long string becomes its `cap`-character prefix
followed by the marker recording the dropped count. -/
theorem truncate_eq_of_gt {s : JStr} {cap : Nat} (h : cap < s.length) :
    truncate s cap = s.take cap ++ truncMarker (s.length - cap) := by
  unfold truncate; rw [if_neg (Nat.not_le.mpr h)]

/-- Truncation lemma: length of a truncated over-long string. -/
theorem truncate_length_of_gt {s : JStr} {cap : Nat} (h : cap < s.length) :
    (truncate s cap).length = cap + (truncMarker (s.length - cap)).length := by
  rw [truncate_eq_of_gt h, List.length_append, List.length_take,
    Nat.min_eq_left (Nat.le_of_lt h)]

/-- The truncation marker is never empty. -/
theorem truncMarker_pos (d : Nat) : 0 < (truncMarker d).length := by
  have h16 : (jstr "\n\n...[TRUNCATED ").length = 16 := by decide
  unfold truncMarker
  rw [List.length_append, List.length_append, h16]
  omega

/-- Any element of a joined array is at most as long as the join. -/
theorem jsJoin_le_of_mem (sep p : JStr) (parts : List JStr) (h : p ∈ parts) :
    p.length ≤ (jsJoin sep parts).length := by
  induction parts with
  | nil => cases h
  | cons x tl ih =>
    cases tl with
    | nil =>
      rcases List.mem_singleton.mp h with rfl
      exact Nat.le_refl _
    | cons y ys =>
      rcases List.mem_cons.mp h with rfl | h2
      · simp only [jsJoin, List.length_append]
        omega
      · have hle := ih h2
        simp only [jsJoin, List.length_append] at hle ⊢
        omega

/-- C3 (confirmed): truncation law of `truncate` — a field within its budget
is rendered unchanged; a field longer than its budget renders as the prefix
up to the budget followed by the marker stating the exact dropped count
(original length minus budget), and the rendered length is the budget plus
the marker length. -/
theorem truncate_law (s : JStr) (cap : Nat) :
    (s.length ≤ cap → truncate s cap = s) ∧
    (cap < s.length →
      truncate s cap = s.take cap ++ truncMarker (s.length - cap) ∧
      (truncate s cap).length = cap + (truncMarker (s.length - cap)).length) :=
  ⟨fun h => truncate_eq_of_le h,
   fun h => ⟨truncate_eq_of_gt h, truncate_length_of_gt h⟩⟩

/-- Witness for C3 at concrete inputs: truncating a 6-character string to 4
keeps the 4-character prefix, appends the marker recording 2 dropped
characters, and a string within budget is unchanged. -/
theorem truncate_law_witness :
    truncate (jstr "abcdef") 4 =
      (jstr "abcdef").take 4 ++ truncMarker ((jstr "abcdef").length - 4) ∧
    (truncate (jstr "abcdef") 4).length =
      4 + (truncMarker ((jstr "abcdef").length - 4)).length ∧
    truncMarker ((jstr "abcdef").length - 4) = jstr "\n\n...[TRUNCATED 2 chars]" ∧
    truncate (jstr "ab") 4 = jstr "ab" :=
  ⟨((truncate_law (jstr "abcdef") 4).2 (by decide)).1,
   ((truncate_law (jstr "abcdef") 4).2 (by decide)).2,
   by decide,
   (truncate_law (jstr "ab") 4).1 (by decide)⟩

/-- C2 (amended): the builder applies `truncate(prompt, 60000)` to the
assembled prompt as the final step — the assembled prompt is returned
unchanged when its length is at most 60000, and otherwise the result is its
60000-character prefix plus the truncation marker (so the returned string
exceeds 60000 characters by exactly the marker length). -/
theorem buildPrompt_overall_cap (input : CritiqueRequest) :
    ((assemblePrompt input).length ≤ MAX_PROMPT_CHARS →
      buildPrompt input = assemblePrompt input) ∧
    (MAX_PROMPT_CHARS < (assemblePrompt input).length →
      buildPrompt input =
        (assemblePrompt input).take MAX_PROMPT_CHARS ++
          truncMarker ((assemblePrompt input).length - MAX_PROMPT_CHARS) ∧
      (buildPrompt input).length =
        MAX_PROMPT_CHARS +
          (truncMarker ((assemblePrompt input).length - MAX_PROMPT_CHARS)).length) :=
  ⟨fun h => truncate_eq_of_le h,
   fun h => ⟨truncate_eq_of_gt h, truncate_length_of_gt h⟩⟩

/-- The prompt assembled from `c2BigInput` is longer than the overall cap:
its 60001-character label is one of the joined parts. -/
theorem c2Big_assemble_gt :
    MAX_PROMPT_CHARS < (assemblePrompt c2BigInput).length := by
  have hmem : c2BigLabel ∈ promptParts c2BigInput := by
    simp only [promptParts, c2BigInput, Option.getD_some]
    repeat first | exact List.Mem.head _ | apply List.Mem.tail
  have hlen : c2BigLabel.length = 60001 := by
    unfold c2BigLabel
    exact List.length_replicate 60001 'a'
  have h1 : (60001 : Nat) ≤ (assemblePrompt c2BigInput).length := by
    have h := jsJoin_le_of_mem (jstr "\n") c2BigLabel (promptParts c2BigInput) hmem
    rwa [hlen] at h
  have h6 : MAX_PROMPT_CHARS = 60000 := rfl
  omega

/-- Witness for C2 at a concrete over-long request: the builder returns the
60000-character prefix of the assembled prompt followed by the marker. -/
theorem buildPrompt_overall_cap_witness :
    buildPrompt c2BigInput =
      (assemblePrompt c2BigInput).take MAX_PROMPT_CHARS ++
        truncMarker ((assemblePrompt c2BigInput).length - MAX_PROMPT_CHARS) :=
  ((buildPrompt_overall_cap c2BigInput).2 c2Big_assemble_gt).1

/-- Counterexample to C2 as stated: a validated request whose (uncapped)
`label` has 60001 characters makes the builder return a string strictly
longer than 60000 characters, because `truncate` appends its marker beyond
the cap. -/
theorem buildPrompt_cap_exceeded : 60000 < (buildPrompt c2BigInput).length := by
  have h2 := c2Big_assemble_gt
  have h6 : MAX_PROMPT_CHARS = 60000 := rfl
  have h5 : (buildPrompt c2BigInput).length =
      MAX_PROMPT_CHARS +
        (truncMarker ((assemblePrompt c2BigInput).length - MAX_PROMPT_CHARS)).length :=
    truncate_length_of_gt h2
  have h4 := truncMarker_pos ((assemblePrompt c2BigInput).length - MAX_PROMPT_CHARS)
  omega

/-- C5 (confirmed): `failure_info` serialization is total — for every value
(absent/`undefined`, `null`, throwing shapes such as cyclic graphs or
BigInts, or shapes serializing to `undefined`), the result is either the
pretty-printed JSON text truncated to the 12000-character budget or the
literal text `"null"`; in particular the throwing shapes and the
absent/null inputs all yield `"null"`. -/
theorem safeStringify_total :
    (∀ x : JsValue, safeStringifyFailureInfo x = jstr "null" ∨
      ∃ raw, serVal [] (jsNullish x) = .ok (some raw) ∧
        safeStringifyFailureInfo x = truncate raw MAX_FAILUREINFO_CHARS) ∧
    safeStringifyFailureInfo .undef = jstr "null" ∧
    safeStringifyFailureInfo .nullV = jstr "null" ∧
    safeStringifyFailureInfo .cyclicV = jstr "null" ∧
    (∀ n : Int, safeStringifyFailureInfo (.bigintV n) = jstr "null") := by
  refine ⟨?_, rfl, rfl, rfl, fun n => rfl⟩
  intro x
  cases h : serVal [] (jsNullish x) with
  | error e => exact Or.inl (by unfold safeStringifyFailureInfo; rw [h])
  | ok o =>
    cases o with
    | none => exact Or.inl (by unfold safeStringifyFailureInfo; rw [h])
    | some raw =>
      exact Or.inr ⟨raw, rfl, by unfold safeStringifyFailureInfo; rw [h]⟩

/-- `listStartsWith` decides the existence of a completing suffix. -/
theorem listStartsWith_iff (n : JStr) : ∀ s : JStr,
    listStartsWith s n = true ↔ ∃ t, s = n ++ t := by
  induction n with
  | nil =>
    intro s
    constructor
    · intro _; exact ⟨s, rfl⟩
    · intro _; cases s <;> rfl
  | cons d ds ih =>
    intro s
    cases s with
    | nil => simp [listStartsWith]
    | cons c cs =>
      simp only [listStartsWith, Bool.and_eq_true, beq_iff_eq, ih,
        List.cons_append, List.cons.injEq]
      constructor
      · rintro ⟨rfl, t, rfl⟩; exact ⟨t, rfl, rfl⟩
      · rintro ⟨t, rfl, rfl⟩; exact ⟨rfl, t, rfl⟩

/-- `jsIncludes` decides substring occurrence. -/
theorem jsIncludes_iff (n : JStr) : ∀ s : JStr,
    jsIncludes s n = true ↔ ∃ pre post, s = pre ++ n ++ post := by
  intro s
  induction s with
  | nil =>
    cases n with
    | nil =>
      constructor
      · intro _; exact ⟨[], [], rfl⟩
      · intro _; rfl
    | cons d ds => simp [jsIncludes]
  | cons c cs ih =>
    simp only [jsIncludes, Bool.or_eq_true, listStartsWith_iff, ih]
    constructor
    · rintro (⟨t, ht⟩ | ⟨pre, post, hp⟩)
      · exact ⟨[], t, by simp [ht]⟩
      · exact ⟨c :: pre, post, by simp [hp]⟩
    · rintro ⟨pre, post, hp⟩
      cases pre with
      | nil => exact Or.inl ⟨post, by simpa using hp⟩
      | cons p ps =>
        rw [List.cons_append, List.cons_append] at hp
        injection hp with h1 h2
        exact Or.inr ⟨ps, post, h2⟩

/-- C6 (confirmed): the `hasAllHeaders` flag is exactly the conjunction of
three substring-presence checks — it is `true` iff the generated text
contains each of the three exact header strings somewhere, independent of
order, exclusivity, or surrounding content; omitting any one makes it
`false`. -/
theorem hasAllHeaders_conjunction (text : JStr) :
    hasAllHeaders text = true ↔
      ((∃ pre post, text = pre ++ jstr "Detailed Diagnosis" ++ post) ∧
       (∃ pre post, text = pre ++ jstr "[Proposed Fix]" ++ post) ∧
       (∃ pre post, text = pre ++ jstr "<Test_Validation>" ++ post)) := by
  simp only [hasAllHeaders, Bool.and_eq_true, jsIncludes_iff, and_assoc]

/-- C4 (amended): the armed timeout is `Number(env || 45000)` — 45000 when
the variable is unset or set to the empty string; the parsed numeric value
when it is set to a decimal numeral; and `NaN` (not 45000) when it is set
to any other non-empty, non-numeric string. -/
theorem timeout_config_amended :
    timeoutMsOf none = JsNumber.num 45000 ∧
    timeoutMsOf (some []) = JsNumber.num 45000 ∧
    (∀ s : JStr, s ≠ [] → timeoutMsOf (some s) = jsNumberOfString s) ∧
    (∀ (s : JStr) (n : Int), s ≠ [] → jsNumberOfString s = JsNumber.num n →
      timeoutMsOf (some s) = JsNumber.num n) ∧
    (∀ s : JStr, s ≠ [] → jsNumberOfString s = JsNumber.nan →
      timeoutMsOf (some s) = JsNumber.nan) := by
  have h3 : ∀ s : JStr, s ≠ [] → timeoutMsOf (some s) = jsNumberOfString s := by
    intro s hs
    have he : timeoutMsOf (some s) =
        if s.isEmpty = true then JsNumber.num 45000 else jsNumberOfString s := rfl
    rw [he, if_neg (fun h => hs (List.isEmpty_iff.mp h))]
  exact ⟨rfl, rfl, h3,
    fun s n hs hn => by rw [h3 s hs, hn],
    fun s hs hn => by rw [h3 s hs, hn]⟩

/-- Witness for C4 at concrete inputs: a numeric string yields its value,
a non-numeric string yields `NaN`. -/
theorem timeout_config_witness :
    timeoutMsOf (some (jstr "60000")) = JsNumber.num 60000 ∧
    timeoutMsOf (some (jstr "abc")) = JsNumber.nan :=
  ⟨timeout_config_amended.2.2.2.1 (jstr "60000") 60000 (by decide) (by decide),
   timeout_config_amended.2.2.2.2 (jstr "abc") (by decide) (by decide)⟩

/-- Counterexample to C4 as stated: with the timeout variable set to the
non-numeric string `"abc"`, the code arms the timer with `NaN`, not with
the claimed default of 45000 milliseconds. -/
theorem timeout_nonnumeric_not_default :
    timeoutMsOf (some (jstr "abc")) = JsNumber.nan ∧
    timeoutMsOf (some (jstr "abc")) ≠ JsNumber.num 45000 :=
  ⟨by decide, by decide⟩

/-- A present non-empty string field passes the required-string check. -/
theorem checkReqStr_ok_of (fields : JsFields) (k i : JStr)
    (h : getField fields k = some (.strV i)) (hne : i ≠ []) :
    checkReqStr fields k = .ok i := by
  simp only [checkReqStr, h]
  rw [if_neg hne]

/-- An absent/undefined/string optional field passes the optional check. -/
theorem checkOptStr_ok_of (fields : JsFields) (k : JStr)
    (h : getField fields k = none ∨ getField fields k = some .undef ∨
      ∃ s, getField fields k = some (.strV s)) :
    ∃ v, checkOptStr fields k = .ok v := by
  rcases h with h | h | ⟨s, h⟩
  · exact ⟨none, by simp only [checkOptStr, h]⟩
  · exact ⟨none, by simp only [checkOptStr, h]⟩
  · exact ⟨some s, by simp only [checkOptStr, h]⟩

/-- A missing or empty required field fails its check with an issue rooted
at that field's path. -/
theorem checkReqStr_err_of (fields : JsFields) (k : JStr)
    (h : getField fields k = none ∨ getField fields k = some .undef ∨
      getField fields k = some (.strV [])) :
    ∃ m, checkReqStr fields k = .error ⟨[k], m⟩ := by
  rcases h with h | h | h
  · exact ⟨msgRequired, by simp only [checkReqStr, h]⟩
  · exact ⟨msgRequired, by simp only [checkReqStr, h]⟩
  · exact ⟨msgTooSmall, by simp [checkReqStr, h]⟩

/-- When all five field checks pass, parsing succeeds with the checked
values. -/
theorem parse_ok_of (fields : JsFields) (i p c : JStr) (l q : Option JStr)
    (h1 : checkReqStr fields keyId = .ok i)
    (h2 : checkReqStr fields keyPrd = .ok p)
    (h3 : checkReqStr fields keyCode = .ok c)
    (h4 : checkOptStr fields keyLabel = .ok l)
    (h5 : checkOptStr fields keyQwq = .ok q) :
    parseCritiqueRequest (.objV fields) =
      .ok ⟨i, p, c, (getField fields keyFailureInfo).getD .undef, l, q,
           (getField fields keyMeta).getD .undef⟩ := by
  simp only [parseCritiqueRequest, h1, h2, h3, h4, h5]

/-- A failing `id` check surfaces its issue in the parse error. -/
theorem parse_err_at_id (fields : JsFields) (e : Issue)
    (h : checkReqStr fields keyId = .error e) :
    ∃ issues, parseCritiqueRequest (.objV fields) = .error issues ∧ e ∈ issues := by
  rcases h2 : checkReqStr fields keyPrd with e2 | v2 <;>
    rcases h3 : checkReqStr fields keyCode with e3 | v3 <;>
      rcases h4 : checkOptStr fields keyLabel with e4 | v4 <;>
        rcases h5 : checkOptStr fields keyQwq with e5 | v5 <;>
          exact ⟨errOf (checkReqStr fields keyId) ++ errOf (checkReqStr fields keyPrd) ++
              errOf (checkReqStr fields keyCode) ++ errOf (checkOptStr fields keyLabel) ++
              errOf (checkOptStr fields keyQwq),
            by simp only [parseCritiqueRequest, h, h2, h3, h4, h5],
            by simp [errOf, h, h2, h3, h4, h5]⟩

/-- A failing `prd` check surfaces its issue in the parse error. -/
theorem parse_err_at_prd (fields : JsFields) (e : Issue)
    (h : checkReqStr fields keyPrd = .error e) :
    ∃ issues, parseCritiqueRequest (.objV fields) = .error issues ∧ e ∈ issues := by
  rcases h1 : checkReqStr fields keyId with e1 | v1 <;>
    rcases h3 : checkReqStr fields keyCode with e3 | v3 <;>
      rcases h4 : checkOptStr fields keyLabel with e4 | v4 <;>
        rcases h5 : checkOptStr fields keyQwq with e5 | v5 <;>
          exact ⟨errOf (checkReqStr fields keyId) ++ errOf (checkReqStr fields keyPrd) ++
              errOf (checkReqStr fields keyCode) ++ errOf (checkOptStr fields keyLabel) ++
              errOf (checkOptStr fields keyQwq),
            by simp only [parseCritiqueRequest, h1, h, h3, h4, h5],
            by simp [errOf, h1, h, h3, h4, h5]⟩

/-- A failing `buggy_solution_code` check surfaces its issue in the parse
error. -/
theorem parse_err_at_code (fields : JsFields) (e : Issue)
    (h : checkReqStr fields keyCode = .error e) :
    ∃ issues, parseCritiqueRequest (.objV fields) = .error issues ∧ e ∈ issues := by
  rcases h1 : checkReqStr fields keyId with e1 | v1 <;>
    rcases h2 : checkReqStr fields keyPrd with e2 | v2 <;>
      rcases h4 : checkOptStr fields keyLabel with e4 | v4 <;>
        rcases h5 : checkOptStr fields keyQwq with e5 | v5 <;>
          exact ⟨errOf (checkReqStr fields keyId) ++ errOf (checkReqStr fields keyPrd) ++
              errOf (checkReqStr fields keyCode) ++ errOf (checkOptStr fields keyLabel) ++
              errOf (checkOptStr fields keyQwq),
            by simp only [parseCritiqueRequest, h1, h2, h, h4, h5],
            by simp [errOf, h1, h2, h, h4, h5]⟩

/-- C7 (amended): the validator accepts every object whose `id`, `prd`,
and `buggy_solution_code` are non-empty strings, provided the declared
optional string fields `label` and `qwq_critique` are, when present,
strings (a non-string value there is rejected — see the counterexample);
and whenever a required field is missing or empty, parsing fails with an
issue list containing an issue whose path names that field (each violated
field is reported, not only the first). -/
theorem validator_amended :
    (∀ (fields : JsFields) (i p c : JStr),
      getField fields keyId = some (.strV i) → i ≠ [] →
      getField fields keyPrd = some (.strV p) → p ≠ [] →
      getField fields keyCode = some (.strV c) → c ≠ [] →
      (getField fields keyLabel = none ∨ getField fields keyLabel = some .undef ∨
        ∃ s, getField fields keyLabel = some (.strV s)) →
      (getField fields keyQwq = none ∨ getField fields keyQwq = some .undef ∨
        ∃ s, getField fields keyQwq = some (.strV s)) →
      ∃ r, parseCritiqueRequest (.objV fields) = .ok r ∧
        r.id = i ∧ r.prd = p ∧ r.buggy_solution_code = c) ∧
    (∀ (fields : JsFields) (k : JStr),
      (k = keyId ∨ k = keyPrd ∨ k = keyCode) →
      (getField fields k = none ∨ getField fields k = some .undef ∨
        getField fields k = some (.strV [])) →
      ∃ issues, parseCritiqueRequest (.objV fields) = .error issues ∧
        ∃ iss, iss ∈ issues ∧ iss.path = [k]) := by
  constructor
  · intro fields i p c hid hin hprd hpn hcode hcn hlab hqwq
    obtain ⟨l, h4⟩ := checkOptStr_ok_of fields keyLabel hlab
    obtain ⟨q, h5⟩ := checkOptStr_ok_of fields keyQwq hqwq
    exact ⟨_, parse_ok_of fields i p c l q
      (checkReqStr_ok_of fields keyId i hid hin)
      (checkReqStr_ok_of fields keyPrd p hprd hpn)
      (checkReqStr_ok_of fields keyCode c hcode hcn) h4 h5, rfl, rfl, rfl⟩
  · intro fields k hk hv
    obtain ⟨m, hm⟩ := checkReqStr_err_of fields k hv
    rcases hk with rfl | rfl | rfl
    · obtain ⟨issues, hpe, hmem⟩ := parse_err_at_id fields ⟨[keyId], m⟩ hm
      exact ⟨issues, hpe, ⟨[keyId], m⟩, hmem, rfl⟩
    · obtain ⟨issues, hpe, hmem⟩ := parse_err_at_prd fields ⟨[keyPrd], m⟩ hm
      exact ⟨issues, hpe, ⟨[keyPrd], m⟩, hmem, rfl⟩
    · obtain ⟨issues, hpe, hmem⟩ := parse_err_at_code fields ⟨[keyCode], m⟩ hm
      exact ⟨issues, hpe, ⟨[keyCode], m⟩, hmem, rfl⟩

/-- Witness for C7 at concrete objects: a fully valid object is accepted
with its field values, and an object missing `prd` is rejected with an
issue at path `["prd"]`. -/
theorem validator_amended_witness :
    (∃ r, parseCritiqueRequest (.objV validFields) = .ok r ∧
      r.id = jstr "s1" ∧ r.prd = jstr "Return sum of list" ∧
      r.buggy_solution_code = jstr "def f(x): return 0") ∧
    (∃ issues, parseCritiqueRequest (.objV missingPrdFields) = .error issues ∧
      ∃ iss, iss ∈ issues ∧ iss.path = [keyPrd]) := by
  constructor
  · exact validator_amended.1 validFields (jstr "s1") (jstr "Return sum of list")
      (jstr "def f(x): return 0") rfl (by decide) rfl (by decide) rfl (by decide)
      (Or.inl rfl) (Or.inl rfl)
  · exact validator_amended.2 missingPrdFields keyPrd (Or.inr (Or.inl rfl)) (Or.inl rfl)

/-- Counterexample to C7 as stated: an object whose three required fields
are valid non-empty strings but whose `label` is the number `5` is
rejected by the validator, so required-field validity alone does not imply
acceptance. -/
theorem validator_rejects_nonstring_label :
    getField labelNumFields keyId = some (.strV (jstr "a")) ∧
    getField labelNumFields keyPrd = some (.strV (jstr "b")) ∧
    getField labelNumFields keyCode = some (.strV (jstr "c")) ∧
    parseCritiqueRequest (.objV labelNumFields) =
      .error [⟨[keyLabel], msgExpectedString⟩] :=
  ⟨rfl, rfl, rfl, rfl⟩

/-- Lookup misses a field list that does not bind the key. -/
theorem getField_none_of_hasKey_false (k : JStr) :
    ∀ extras : JsFields, JsFields.hasKey k extras = false → getField extras k = none
  | .nil, _ => rfl
  | .cons k2 v tl, h => by
    have h2 : (k2 == k) = false ∧ JsFields.hasKey k tl = false := by
      simpa [JsFields.hasKey] using h
    simp only [getField, getField_none_of_hasKey_false k tl h2.2]
    rw [if_neg (beq_eq_false_iff_ne.mp h2.1)]

/-- Appending fields that do not bind `k` leaves lookup of `k` unchanged. -/
theorem getField_append_of_hasKey_false :
    ∀ (fields : JsFields) (extras : JsFields) (k : JStr),
      JsFields.hasKey k extras = false →
      getField (JsFields.append fields extras) k = getField fields k
  | .nil, extras, k, h => by
    simp only [JsFields.append]
    rw [getField_none_of_hasKey_false k extras h]
    rfl
  | .cons k2 v tl, extras, k, h => by
    simp only [JsFields.append, getField,
      getField_append_of_hasKey_false tl extras k h]

/-- Appending extra properties whose keys are unknown to the schema does
not change the parse result. -/
theorem parse_strip (fields extras : JsFields)
    (h : ∀ k ∈ schemaKeys, JsFields.hasKey k extras = false) :
    parseCritiqueRequest (.objV (JsFields.append fields extras)) =
      parseCritiqueRequest (.objV fields) := by
  have hg : ∀ k ∈ schemaKeys,
      getField (JsFields.append fields extras) k = getField fields k :=
    fun k hk => getField_append_of_hasKey_false fields extras k (h k hk)
  have e1 : checkReqStr (JsFields.append fields extras) keyId = checkReqStr fields keyId := by
    simp only [checkReqStr, hg keyId (by simp [schemaKeys])]
  have e2 : checkReqStr (JsFields.append fields extras) keyPrd = checkReqStr fields keyPrd := by
    simp only [checkReqStr, hg keyPrd (by simp [schemaKeys])]
  have e3 : checkReqStr (JsFields.append fields extras) keyCode = checkReqStr fields keyCode := by
    simp only [checkReqStr, hg keyCode (by simp [schemaKeys])]
  have e4 : checkOptStr (JsFields.append fields extras) keyLabel = checkOptStr fields keyLabel := by
    simp only [checkOptStr, hg keyLabel (by simp [schemaKeys])]
  have e5 : checkOptStr (JsFields.append fields extras) keyQwq = checkOptStr fields keyQwq := by
    simp only [checkOptStr, hg keyQwq (by simp [schemaKeys])]
  have e6 := hg keyFailureInfo (by simp [schemaKeys])
  have e7 := hg keyMeta (by simp [schemaKeys])
  simp only [parseCritiqueRequest, e1, e2, e3, e4, e5, e6, e7]

/-- C10 (amended): extra properties with keys outside the schema never make
validation fail and are stripped — parsing an object with such extras
appended equals parsing the object without them, and so does the whole
route response; the undocumented schema field `qwq_critique` is accepted
when it is a string (a non-string value there is rejected — see the
counterexample) and never influences the built prompt. -/
theorem extras_ignored_amended :
    (∀ fields extras : JsFields,
      (∀ k ∈ schemaKeys, JsFields.hasKey k extras = false) →
      parseCritiqueRequest (.objV (JsFields.append fields extras)) =
        parseCritiqueRequest (.objV fields)) ∧
    (∀ (r : CritiqueRequest) (q : Option JStr),
      buildPrompt { r with qwq_critique := q } = buildPrompt r) ∧
    (∀ (env : Env) (ct : Option JStr) (fields extras : JsFields) (o : ModelOutcome),
      (∀ k ∈ schemaKeys, JsFields.hasKey k extras = false) →
      POST env ⟨ct, some (.objV (JsFields.append fields extras))⟩ o =
        POST env ⟨ct, some (.objV fields)⟩ o) := by
  refine ⟨fun fields extras h => parse_strip fields extras h, fun r q => rfl, ?_⟩
  intro env ct fields extras o h
  simp only [POST, POSTrun]
  rw [parse_strip fields extras h]

/-- Witness for C10 at concrete objects: appending two unknown-key extras
to a valid object leaves the parse result unchanged, and setting
`qwq_critique` leaves the built prompt unchanged. -/
theorem extras_ignored_witness :
    parseCritiqueRequest (.objV (JsFields.append c10BaseFields c10Extras)) =
      parseCritiqueRequest (.objV c10BaseFields) ∧
    buildPrompt { c10Parsed with qwq_critique := some (jstr "note") } =
      buildPrompt c10Parsed :=
  ⟨extras_ignored_amended.1 c10BaseFields c10Extras (by decide),
   extras_ignored_amended.2.1 c10Parsed (some (jstr "note"))⟩

/-- Counterexample to C10 as stated: the base object is accepted, but
adding the extra property `qwq_critique: 5` (a non-string value on the
undocumented schema key) makes validation fail. -/
theorem nonstring_qwq_rejected :
    parseCritiqueRequest (.objV c10BaseFields) = .ok c10Parsed ∧
    parseCritiqueRequest (.objV qwqNumFields) =
      .error [⟨[keyQwq], msgExpectedString⟩] :=
  ⟨rfl, rfl⟩

/-- C1 (amended): the implemented classification priority is content-type
mismatch first (415, before anything else is inspected), then missing
credential (500, before the body is parsed or validated), and only then
validation failure (400); in particular a request with a JSON content type
whose body is missing `prd` is classified `Misconfigured`, not
`ValidationError`, when the credential is absent. -/
theorem classification_priority_as_implemented
    (env : Env) (req : Req) (o : ModelOutcome) (b : JsValue) (issues : List Issue) :
    (ctDeclaresJson req.contentType = false →
      (POST env req o).status = 415 ∧
      (POST env req o).body = .failure (jstr "Content-Type must be application/json") none) ∧
    (ctDeclaresJson req.contentType = true → tokenFalsy env.hfToken = true →
      (POST env req o).status = 500 ∧
      (POST env req o).body = .failure (jstr "Server misconfigured: HF_TOKEN missing") none) ∧
    (ctDeclaresJson req.contentType = true → tokenFalsy env.hfToken = false →
      req.body = some b → parseCritiqueRequest b = .error issues →
      (POST env req o).status = 400 ∧
      (POST env req o).body = .failure (jstr "Invalid request body") (some issues)) := by
  refine ⟨?_, ?_, ?_⟩
  · intro h1
    simp [POST, POSTrun, jsonNoStore, h1]
  · intro h1 h2
    simp [POST, POSTrun, jsonNoStore, h1, h2]
  · intro h1 h2 h3 h4
    simp [POST, POSTrun, jsonNoStore, h1, h2, h3, h4]

/-- Witness for C1 at concrete inputs: with a JSON content type and a body
missing `prd`, the response is 400 when the credential is present and 500
(misconfigured) when it is absent. -/
theorem classification_priority_witness :
    (POST envTokenOk reqMissingPrdJson .otherError).status = 400 ∧
    (POST envNoToken reqMissingPrdJson .otherError).status = 500 :=
  ⟨((classification_priority_as_implemented envTokenOk reqMissingPrdJson .otherError
      (.objV missingPrdFields) c1Issues).2.2 rfl rfl rfl rfl).1,
   ((classification_priority_as_implemented envNoToken reqMissingPrdJson .otherError
      (.objV missingPrdFields) c1Issues).2.1 rfl rfl).1⟩

/-- Counterexample to C1 as stated: a request whose body is missing `prd`,
sent with a JSON content type to a deployment with no credential, is
classified as `Misconfigured` (500) and NOT as a validation failure (400) —
the credential check runs before validation. -/
theorem validation_not_prioritized_over_misconfig :
    (POST envNoToken reqMissingPrdJson .otherError).status = 500 ∧
    (POST envNoToken reqMissingPrdJson .otherError).status ≠ 400 ∧
    (POST envNoToken reqMissingPrdJson .otherError).body =
      .failure (jstr "Server misconfigured: HF_TOKEN missing") none :=
  ⟨rfl, by decide, rfl⟩

/-- C8 (confirmed): the route issues at most one completion call per
invocation, and exactly one for every invocation that passes the guards and
reaches the model invoker — there is no retry loop in the handler (retries,
if any, happen inside the model client library, below this component's
contract). -/
theorem single_model_call (env : Env) (req : Req) (o : ModelOutcome) :
    (POSTrun env req o).modelCalls ≤ 1 ∧
    (reachesInvoker env req = true → (POSTrun env req o).modelCalls = 1) := by
  constructor
  · unfold POSTrun
    repeat' split
    all_goals simp
  · intro h
    simp only [reachesInvoker, Bool.and_eq_true, Bool.not_eq_true'] at h
    obtain ⟨⟨hct, htk⟩, hbody⟩ := h
    unfold POSTrun
    rw [if_neg (by simp [hct]), if_neg (by simp [htk])]
    cases hb : req.body with
    | none => simp [hb] at hbody
    | some b =>
      cases hp : parseCritiqueRequest b with
      | error e => simp [hb, hp] at hbody
      | ok input =>
        simp only [hp]
        cases o <;> rfl

/-- Witness for C8 at a concrete passing request: the invocation reaches
the invoker and performs exactly one completion call. -/
theorem single_model_call_witness :
    (POSTrun envTokenOk reqValidJson (.success (some (jstr "ok")))).modelCalls = 1 :=
  (single_model_call envTokenOk reqValidJson (.success (some (jstr "ok")))).2 rfl

/-- C9 (confirmed): every response is marked not cacheable
(`Cache-Control: no-store`), and every response carries the status the
spec's table dictates for its outcome class: validation failure 400,
content-type mismatch 415, missing credential 500, timeout 504, any other
failure 500, success 200. -/
theorem status_mapping_no_store (env : Env) (req : Req) (o : ModelOutcome) :
    (POST env req o).cacheControl = jstr "no-store" ∧
    (POST env req o).status = specStatus (classify env req o) := by
  unfold POST POSTrun classify jsonNoStore
  repeat' split
  all_goals exact ⟨rfl, rfl⟩
